import Mathlib

/-!
Shallow embedding of the lumos repository core (src/lumos/context.py and
src/lumos/net.py): the singleton `Context` with its configuration loading,
input-source classification and pause/resume time control, and the RPC-backed
`ImageServer` / `ImageClient` / `EventLogger` components.

Wall-clock instants (Python `time.time()` floats) are modelled as rationals
passed explicitly to each operation that reads the clock.  External
collaborators (argparse, the `rpc` transport, the filesystem, `util.isRemote`
/ `util.isImageFile` / `util.isVideoFile`) are modelled as resolved inputs:
the embedding records their observable answers, not their internals, matching
the repository's use of them as opaque interfaces.
-/

/-- A decoded image frame (a numpy ndarray in the source); the core never
inspects its contents, so it is modelled as an opaque payload. -/
structure Image where
  data : List Nat
deriving DecidableEq

/-- A parsed network endpoint, as returned by `util.isRemote(s, parts=True)`. -/
structure Endpoint where
  host : String
  port : Nat
deriving DecidableEq

/-- The observable answers of the external helpers consulted while
classifying `options.input_source` in `Context.__init__`:
`asInt` is the result of `int(input_source)` (`none` when `ValueError` is
raised), `remoteCheck` the result of `util.isRemote(input_source, parts=True)`
(`none` when not a network endpoint), and the booleans the answers of
`os.path.exists`, `os.path.isdir`, `util.isImageFile`, `util.isVideoFile`
on the absolutized path. -/
structure InputSourceInfo where
  asInt : Option Int
  remoteCheck : Option Endpoint
  pathExists : Bool
  pathIsDir : Bool
  isImageFile : Bool
  isVideoFile : Bool
deriving DecidableEq

/-- The mapping loaded from the YAML configuration file. -/
abbrev Config := List (String × String)

/-- The three shapes of the `--rpc` option (`dest='rpc_port', nargs='?',
default=-1`): absent (`-1`, no server), given without a value (`None`, use
the transport's default port), or given with an explicit port. -/
inductive RpcOpt
  | absent
  | defaultPort
  | explicitPort (p : Int)
deriving DecidableEq

/-- The resolved command-line environment `Context.__init__` runs in, as left
by `argparse`: whether the config file opens (and to what mapping), the
options the core inspects, and the external classification answers for
`input_source`.  `configFile = none` models `open(config_file)` raising
`IOError`; `inputGiven` models `options.input_source is not None`. -/
structure Env where
  configFile : Option Config
  debug : Bool
  guiFlag : Bool
  delayOpt : Option Int
  rpcOpt : RpcOpt
  inputGiven : Bool
  inputInfo : InputSourceInfo
deriving DecidableEq

/-- The input-source classification flags set by `Context.__init__`. -/
structure Flags where
  isDir : Bool
  isImage : Bool
  isVideo : Bool
  isRemote : Bool
  remoteEndpoint : Option Endpoint
deriving DecidableEq

/-- The initial flag values (`self.isDir = False`, ..., `self.remoteEndpoint
= None` at the top of the input-source block of `Context.__init__`). -/
def Flags.init : Flags :=
  { isDir := false, isImage := false, isVideo := false, isRemote := false,
    remoteEndpoint := none }

/-- Number of the four boolean classification flags that are set. -/
def Flags.count (f : Flags) : Nat :=
  (if f.isDir then 1 else 0) + (if f.isImage then 1 else 0) +
    (if f.isVideo then 1 else 0) + (if f.isRemote then 1 else 0)

/-- All four boolean classification flags are clear. -/
def Flags.allClear (f : Flags) : Bool :=
  !f.isDir && !f.isImage && !f.isVideo && !f.isRemote

/-- The input-source classification cascade of `Context.__init__` (order
matters, first match wins): skip when `input_source` is `None`; an integer
parse means a local device and sets nothing; otherwise a network endpoint
sets `isRemote`/`remoteEndpoint`; otherwise an existing path is classified
as directory, image file, or video file; every remaining case only logs a
warning and leaves the flags at their initial values. -/
def classifyInput (inputGiven : Bool) (info : InputSourceInfo) : Flags :=
  if inputGiven then
    match info.asInt with
    | some _ => Flags.init
    | none =>
      match info.remoteCheck with
      | some ep => { Flags.init with isRemote := true, remoteEndpoint := some ep }
      | none =>
        if info.pathExists then
          if info.pathIsDir then { Flags.init with isDir := true }
          else if info.isImageFile then { Flags.init with isImage := true }
          else if info.isVideoFile then { Flags.init with isVideo := true }
          else Flags.init
        else Flags.init
  else Flags.init

/-- The unresolved input-source situations: an integer device index, or a
path case (not remote) where the path is missing or of unrecognized type. -/
def inputUnresolved (info : InputSourceInfo) : Bool :=
  info.asInt.isSome ||
    (info.remoteCheck.isNone &&
      (!info.pathExists ||
        (!info.pathIsDir && !info.isImageFile && !info.isVideoFile)))

/-- The `Context` singleton's state after construction: the loaded config
mapping, the classification flags, the option-derived fields the core keeps,
and the time-control fields set by `resetTime` (`timeStart`, `timeNow`,
`isPaused`, `timePaused`). -/
structure Context where
  config : Config
  flags : Flags
  debug : Bool
  delay : Option Int
  isRPCEnabled : Bool
  timeStart : ℚ
  timeNow : ℚ
  isPaused : Bool
  timePaused : ℚ
deriving DecidableEq

/-- `Context.resetTime`: set the time origin to now, zero the elapsed time,
clear the paused flag, and initialize `timePaused`. -/
def Context.resetTime (c : Context) (now : ℚ) : Context :=
  { c with timeStart := now, timeNow := 0, isPaused := false, timePaused := now }

/-- `Context.update`: recompute elapsed time as `time.time() - self.timeStart`;
the source applies this formula unconditionally, paused or not. -/
def Context.update (c : Context) (now : ℚ) : Context :=
  { c with timeNow := now - c.timeStart }

/-- `Context.pause`: record the pause instant and set the paused flag. -/
def Context.pause (c : Context) (now : ℚ) : Context :=
  { c with timePaused := now, isPaused := true }

/-- `Context.resume`: shift the time origin forward by the time spent paused
(`self.timeStart += time.time() - self.timePaused`) and clear the flag. -/
def Context.resume (c : Context) (now : ℚ) : Context :=
  { c with timeStart := c.timeStart + (now - c.timePaused), isPaused := false }

/-- The errors `Context.__init__` propagates: the singleton guard's
`Exception("Singleton instance already exists!")` and the re-raised `IOError`
from opening the configuration file. -/
inductive ContextError
  | singletonViolation
  | configLoadError
deriving DecidableEq

/-- The process-wide class-level slot `Context.instance` (set only by
`createInstance`, absent until then). -/
structure ProcessState where
  ctxInstance : Option Context
deriving DecidableEq

/-- `Context.__init__`: fail if a singleton instance already exists; load the
configuration file, re-raising its `IOError` as a fatal error; resolve the
delay default (10 ms when unset and GUI mode is on); classify the input
source; note whether an RPC server was requested; and reset the clock.
Returns the constructed context and the (unmodified) class-level instance
slot — `__init__` itself never registers the instance. -/
def Context.init (env : Env) (now : ℚ) (ps : ProcessState) :
    Except ContextError (Context × ProcessState) :=
  if ps.ctxInstance.isSome then
    Except.error ContextError.singletonViolation
  else
    match env.configFile with
    | none => Except.error ContextError.configLoadError
    | some cfg =>
      let delay := match env.delayOpt with
        | none => if env.guiFlag then some 10 else none
        | some d => some d
      let flags := classifyInput env.inputGiven env.inputInfo
      let rpcEnabled := match env.rpcOpt with
        | RpcOpt.absent => false
        | _ => true
      let c : Context := Context.resetTime
        { config := cfg, flags := flags, debug := env.debug, delay := delay,
          isRPCEnabled := rpcEnabled,
          timeStart := 0, timeNow := 0, isPaused := false, timePaused := 0 } now
      Except.ok (c, ps)

/-- `Context.createInstance`: construct-if-absent.  When an instance already
exists, print a warning and return it unchanged (the `Bool` records that the
warning was printed); otherwise construct via `Context.__init__` and register
the result in the class-level slot. -/
def Context.createInstance (env : Env) (now : ℚ) (ps : ProcessState) :
    Except ContextError (Context × ProcessState × Bool) :=
  match ps.ctxInstance with
  | some c => Except.ok (c, ps, true)
  | none =>
    match Context.init env now ps with
    | Except.error e => Except.error e
    | Except.ok (c, _) => Except.ok (c, { ctxInstance := some c }, false)

/-- `ImageServer` state: the latest written frame (`self.image`, `None`
until the first `write`), the one-shot freshness flag, and whether the
transport's server thread is running. -/
structure ImageServerState where
  image : Option Image
  isFresh : Bool
  serverRunning : Bool
deriving DecidableEq

/-- `ImageServer.__init__`: no image yet, `isFresh = True`, and the server
thread started when requested. -/
def ImageServer.init (startServer : Bool) : ImageServerState :=
  { image := none, isFresh := true, serverRunning := startServer }

/-- `ImageServer.max_wait_duration`: total seconds `read` waits for a first
valid image. -/
def ImageServer.max_wait_duration : ℚ := 2

/-- `ImageServer.wait_interval`: seconds slept per poll of the wait loop. -/
def ImageServer.wait_interval : ℚ := 1 / 10

/-- Outcome of one `ImageServer.read` call: whether the first-read wait loop
blocked (slept at least once, polling up to `max_wait_duration`), the reply
sent to the client, and the server state afterwards. -/
structure ReadOutcome where
  waited : Bool
  result : Option Image
  state : ImageServerState
deriving DecidableEq

/-- `ImageServer.read`: when `isFresh`, run the wait loop — with no
concurrent writer the stored image does not change, so the loop blocks
(for up to `max_wait_duration`) exactly when no image is stored — then clear
the flag; in every case reply with the currently stored image. -/
def ImageServerState.read (s : ImageServerState) : ReadOutcome :=
  if s.isFresh then
    { waited := s.image.isNone, result := s.image, state := { s with isFresh := false } }
  else
    { waited := false, result := s.image, state := s }

/-- `OutputDevice.write` as used by `ImageServer`: unconditionally overwrite
the stored frame. -/
def ImageServerState.write (s : ImageServerState) (img : Image) : ImageServerState :=
  { s with image := some img }

/-- `ImageServer.stop`: clear the stored image back to `None`, reset
`isFresh` to `True`, and halt the transport's server loop. -/
def ImageServerState.stop (s : ImageServerState) : ImageServerState :=
  { s with image := none, isFresh := true, serverRunning := false }

/-- An operation performed on an `ImageServer` over its lifetime. -/
inductive ServerOp
  | read
  | write (img : Image)
  | stop
deriving DecidableEq

/-- Whether an operation is a `stop`. -/
def ServerOp.isStop : ServerOp → Bool
  | ServerOp.stop => true
  | _ => false

/-- Run a sequence of operations against an `ImageServer`, discarding read
replies (only the state evolution matters). -/
def ImageServerState.run (s : ImageServerState) : List ServerOp → ImageServerState
  | [] => s
  | ServerOp.read :: ops => (s.read).state.run ops
  | ServerOp.write img :: ops => (s.write img).run ops
  | ServerOp.stop :: ops => s.stop.run ops

/-- A Python value as seen by `ImageClient.read` in the RPC reply: a numpy
ndarray image payload, `None` (the absent-image sentinel), the transport's
timeout result, or any other value — the source only tests
`isinstance(image, np.ndarray)`. -/
inductive PyValue
  | ndarray (img : Image)
  | pynone
  | timeoutResult
  | otherValue (tag : String)
deriving DecidableEq

/-- `ImageClient.read`: issue one remote call; a reply that is an ndarray
yields `(True, image)`, anything else yields `(False, None)`. -/
def ImageClient.read (reply : PyValue) : Bool × Option Image :=
  match reply with
  | PyValue.ndarray img => (true, some img)
  | _ => (false, none)

/-- The `EventLogger`'s output file object: the lines written so far and
whether the file has been closed. -/
structure OutStream where
  lines : List String
  closed : Bool
deriving DecidableEq

/-- Python runtime errors surfaced by the degraded `EventLogger` paths:
accessing a never-assigned attribute, and writing to a closed file. -/
inductive PyError
  | attributeError
  | valueError
deriving DecidableEq

/-- `EventLogger` state.  `out = none` models the attribute `self.out` never
having been assigned (because `open` raised inside `__init__`'s `try`);
`out = some o` is an assigned file object with contents `o`. -/
structure EventLoggerState where
  filename : String
  sep : String
  port : Nat
  serverStarted : Bool
  initTime : ℚ
  rpcExported : Bool
  out : Option OutStream
deriving DecidableEq

/-- The auto-generated filename timestamp.  `time.strftime` over
`time.localtime(initTime)` is an external library call; it is modelled
abstractly as a rendering of the construction instant. -/
def EventLogger.timestampName (t : ℚ) : String := toString t

/-- `EventLogger.__init__`: record options, set `serverStarted = False`,
capture `initTime`, auto-generate the filename when none was given, then in
a `try` block open the output file, export over RPC and start the server
thread; any exception in that block is caught and logged as an error, so
construction itself always returns.  `openFails` models `open(filename,'w')`
raising; `serverThreadFails` models `rpc.start_server_thread` raising after
a successful open (in which case `self.out` is assigned but `serverStarted`
stays `False`). -/
def EventLogger.init (filename : Option String) (sep : String) (port : Nat)
    (rpcExport startServer : Bool) (now : ℚ)
    (openFails serverThreadFails : Bool) : EventLoggerState :=
  let fname := match filename with
    | some f => f
    | none => "logs/events_" ++ EventLogger.timestampName now ++ ".log"
  if openFails then
    { filename := fname, sep := sep, port := port, serverStarted := false,
      initTime := now, rpcExported := false, out := none }
  else
    { filename := fname, sep := sep, port := port,
      serverStarted := rpcExport && startServer && !serverThreadFails,
      initTime := now, rpcExported := rpcExport, out := some { lines := [], closed := false } }

/-- `EventLogger.log`: `print(tag, time.time(), msg, sep=self.sep,
file=self.out)` — append one line `tag<sep>timestamp<sep>msg` with the
absolute wall-clock time of the call.  Accessing a never-assigned `self.out`
raises `AttributeError`; printing to a closed file raises `ValueError`. -/
def EventLoggerState.log (s : EventLoggerState) (now : ℚ) (tag msg : String) :
    Except PyError EventLoggerState :=
  match s.out with
  | none => Except.error PyError.attributeError
  | some o =>
    if o.closed then Except.error PyError.valueError
    else
      let o2 : OutStream :=
        { o with lines := o.lines ++ [tag ++ s.sep ++ toString now ++ s.sep ++ msg] }
      Except.ok { s with out := some o2 }

/-- `EventLogger.stop`: close the output stream (accessing a never-assigned
`self.out` raises `AttributeError`) and, when requested and the server was
started, halt the transport's server loop. -/
def EventLoggerState.stop (s : EventLoggerState) (stopServer : Bool) :
    Except PyError EventLoggerState :=
  match s.out with
  | none => Except.error PyError.attributeError
  | some o => Except.ok { s with out := some { o with closed := true } }

/-! ## Helper lemmas and sample values -/

/-- After any `read`, the freshness flag is clear. -/
theorem read_state_not_fresh (s : ImageServerState) : (s.read).state.isFresh = false := by
  cases hs : s.isFresh <;> simp [ImageServerState.read, hs]

/-- A `read` on a non-fresh server never enters the wait loop. -/
theorem read_not_fresh_no_wait (s : ImageServerState) (hs : s.isFresh = false) :
    (s.read).waited = false := by
  simp [ImageServerState.read, hs]

/-- Running any stop-free operation sequence preserves a cleared freshness
flag: only `stop` ever sets `isFresh` back to `True`. -/
theorem run_preserves_not_fresh (ops : List ServerOp) : ∀ s : ImageServerState,
    (∀ op ∈ ops, op.isStop = false) → s.isFresh = false →
    (s.run ops).isFresh = false := by
  induction ops with
  | nil => intro s _ hs; simpa [ImageServerState.run] using hs
  | cons op ops ih =>
    intro s h hs
    have hops : ∀ o ∈ ops, o.isStop = false := fun o ho => h o (List.mem_cons_of_mem _ ho)
    cases op with
    | read =>
      simpa [ImageServerState.run] using ih _ hops (read_state_not_fresh s)
    | write img =>
      have hw : (s.write img).isFresh = false := by simpa [ImageServerState.write] using hs
      simpa [ImageServerState.run] using ih _ hops hw
    | stop =>
      have := h ServerOp.stop (List.mem_cons_self _ _)
      simp [ServerOp.isStop] at this

/-- The classification cascade sets at most one of the four flags. -/
theorem classifyInput_count_le_one (g : Bool) (info : InputSourceInfo) :
    Flags.count (classifyInput g info) ≤ 1 := by
  rcases info with ⟨ai, rc, pe, pd, imf, ivf⟩
  cases g <;> cases ai <;> cases rc <;> cases pe <;> cases pd <;> cases imf <;> cases ivf <;>
    simp [classifyInput, Flags.count, Flags.init]

/-- An unresolved input source leaves every classification flag clear. -/
theorem classifyInput_unresolved_clear (g : Bool) (info : InputSourceInfo)
    (h : inputUnresolved info = true) :
    Flags.allClear (classifyInput g info) = true := by
  rcases info with ⟨ai, rc, pe, pd, imf, ivf⟩
  cases g <;> cases ai <;> cases rc <;> cases pe <;> cases pd <;> cases imf <;> cases ivf <;>
    simp_all [classifyInput, inputUnresolved, Flags.allClear, Flags.init]

/-- A successful `Context.__init__` stores exactly the classification
cascade's flags in the constructed context. -/
theorem init_ok_flags (env : Env) (now : ℚ) (ps ps2 : ProcessState) (c : Context)
    (h : Context.init env now ps = Except.ok (c, ps2)) :
    c.flags = classifyInput env.inputGiven env.inputInfo := by
  by_cases hps : ps.ctxInstance.isSome
  · simp [Context.init, hps] at h
  · cases hcfg : env.configFile with
    | none => simp [Context.init, hps, hcfg] at h
    | some cfg =>
      simp [Context.init, hps, hcfg, Context.resetTime] at h
      obtain ⟨hc, -⟩ := h
      rw [← hc]

/-- A paused context as left by `pause` after some activity: origin 0,
elapsed 5 at the pause instant 5. -/
def pausedContextExample : Context :=
  { config := [], flags := Flags.init, debug := false, delay := none,
    isRPCEnabled := false, timeStart := 0, timeNow := 5, isPaused := true,
    timePaused := 5 }

/-- A context exactly as constructed by `Context.init` at instant 0 with an
unresolved input source and GUI defaults. -/
def sampleContext : Context :=
  { config := [], flags := Flags.init, debug := false, delay := some 10,
    isRPCEnabled := false, timeStart := 0, timeNow := 0, isPaused := false,
    timePaused := 0 }

/-- A resolved environment whose input source is the integer device index 0
(the default `input_source='0'`). -/
def sampleEnv : Env :=
  { configFile := some [], debug := false, guiFlag := true, delayOpt := none,
    rpcOpt := RpcOpt.absent, inputGiven := true,
    inputInfo := { asInt := some 0, remoteCheck := none, pathExists := false,
                   pathIsDir := false, isImageFile := false, isVideoFile := false } }

/-- An environment whose configuration file fails to open. -/
def noConfigEnv : Env := { sampleEnv with configFile := none }

/-- An environment whose input source is a nonexistent filesystem path. -/
def unresolvedEnv : Env :=
  { sampleEnv with
    inputInfo := { asInt := none, remoteCheck := none, pathExists := false,
                   pathIsDir := false, isImageFile := false, isVideoFile := false } }

/-- An `EventLogger` whose output file opened successfully and is empty. -/
def sampleLogger : EventLoggerState :=
  { filename := "events.log", sep := "\t", port := 62626, serverStarted := true,
    initTime := 0, rpcExported := true, out := some { lines := [], closed := false } }

/-! ## Claim theorems -/

/-- C1 counterexample: the first-read wait behavior is not one-shot over the
instance's lifetime.  On a fresh server the first `read` enters the wait
loop; after `stop()` (which resets `isFresh`), the next `read` enters the
wait loop again instead of returning immediately, refuting "the wait loop
runs at most once ... regardless of what other operations (such as stop())
are performed in between". -/
theorem c1_read_waits_again_after_stop :
    ((ImageServer.init true).read).waited = true ∧
    (((ImageServer.init true).read).state.stop.read).waited = true := by
  decide

/-- C1 (amended): after the first `read()` resolves, every subsequent
`read()` returns the stored image immediately without waiting, as long as
`stop()` is not called in between — any number of further reads and writes
keeps the freshness flag clear. -/
theorem c1_no_wait_without_stop (s : ImageServerState) (ops : List ServerOp)
    (h : ∀ op ∈ ops, op.isStop = false) :
    (((s.read).state.run ops).read).waited = false :=
  read_not_fresh_no_wait _ (run_preserves_not_fresh ops _ h (read_state_not_fresh s))

/-- C1 (amended) witness: a concrete stop-free history — first read, then an
empty read and a write — after which the next read does not wait. -/
theorem c1_no_wait_without_stop_witness :
    (∀ op ∈ [ServerOp.read, ServerOp.write (Image.mk [1])], op.isStop = false) ∧
    ((((ImageServer.init true).read).state.run
        [ServerOp.read, ServerOp.write (Image.mk [1])]).read).waited = false :=
  ⟨by decide, c1_no_wait_without_stop (ImageServer.init true) _ (by decide)⟩

/-- C2 counterexample: `update()` on a paused context does change `timeNow`
when wall-clock time has passed — for a context paused at elapsed time 5
(origin 0), `update` at instant 10 sets `timeNow` to 10, not 5. -/
theorem c2_update_advances_while_paused :
    pausedContextExample.isPaused = true ∧
    (pausedContextExample.update 10).timeNow ≠ pausedContextExample.timeNow := by
  constructor
  · rfl
  · norm_num [pausedContextExample, Context.update]

/-- C2 (amended): while paused, `update()` applies the same formula as when
unpaused, recomputing `timeNow` as now − `timeStart`; consequently wall-clock
time spent paused does advance `timeNow` (by exactly the wall-clock delta)
until `resume()` shifts the origin. -/
theorem c2_update_formula_while_paused (c : Context) (t1 t2 : ℚ)
    (hp : c.isPaused = true) (h12 : t1 < t2) :
    (c.update t2).timeNow = t2 - c.timeStart ∧
    (c.update t2).timeNow - (c.update t1).timeNow = t2 - t1 := by
  constructor
  · rfl
  · simp [Context.update]

/-- C2 (amended) witness: the paused example context, updated at instants 5
and 10. -/
theorem c2_update_formula_while_paused_witness :
    (pausedContextExample.isPaused = true ∧ (5 : ℚ) < 10) ∧
    ((pausedContextExample.update 10).timeNow = 10 - pausedContextExample.timeStart ∧
      (pausedContextExample.update 10).timeNow - (pausedContextExample.update 5).timeNow
        = 10 - 5) :=
  ⟨⟨rfl, by norm_num⟩,
    c2_update_formula_while_paused pausedContextExample 5 10 rfl (by norm_num)⟩

/-- C3: `pause()` at instant t followed by `resume()` at instant t + d
shifts the time origin forward by exactly the paused duration d and clears
`isPaused`, so `update()` immediately after `resume()` computes exactly the
elapsed time that `update()` would compute immediately before `pause()` —
the pause interval is not counted. -/
theorem c3_pause_resume_preserves_elapsed (c : Context) (t d : ℚ) :
    ((c.pause t).resume (t + d)).isPaused = false ∧
    ((c.pause t).resume (t + d)).timeStart = c.timeStart + d ∧
    (((c.pause t).resume (t + d)).update (t + d)).timeNow = (c.update t).timeNow := by
  refine ⟨rfl, ?_, ?_⟩
  · simp [Context.pause, Context.resume]
  · simp [Context.pause, Context.resume, Context.update]

/-- C4: when an instance is already registered, a second direct construction
(`Context.__init__`) fails with the singleton-violation error, while
`createInstance` does not fail: it returns the original instance with the
process slot unchanged (and the warning printed). -/
theorem c4_singleton_enforced (env : Env) (now : ℚ) (ps : ProcessState) (c : Context)
    (h : ps.ctxInstance = some c) :
    Context.init env now ps = Except.error ContextError.singletonViolation ∧
    Context.createInstance env now ps = Except.ok (c, ps, true) := by
  constructor
  · simp [Context.init, h]
  · simp [Context.createInstance, h]

/-- C4 witness: a process that already holds `sampleContext`. -/
theorem c4_singleton_enforced_witness :
    (ProcessState.mk (some sampleContext)).ctxInstance = some sampleContext ∧
    (Context.init sampleEnv 0 (ProcessState.mk (some sampleContext))
        = Except.error ContextError.singletonViolation ∧
      Context.createInstance sampleEnv 0 (ProcessState.mk (some sampleContext))
        = Except.ok (sampleContext, ProcessState.mk (some sampleContext), true)) :=
  ⟨rfl, c4_singleton_enforced sampleEnv 0 (ProcessState.mk (some sampleContext))
    sampleContext rfl⟩

/-- C5: when the configuration file cannot be opened, `Context.__init__`
propagates the config-load error instead of absorbing it, and no context is
produced — construction never reaches any later initialization step. -/
theorem c5_config_failure_fatal (env : Env) (now : ℚ) (ps : ProcessState)
    (hps : ps.ctxInstance = none) (hcfg : env.configFile = none) :
    Context.init env now ps = Except.error ContextError.configLoadError := by
  simp [Context.init, hps, hcfg]

/-- C5 witness: a fresh process with an unreadable configuration file. -/
theorem c5_config_failure_fatal_witness :
    (ProcessState.mk none).ctxInstance = none ∧ noConfigEnv.configFile = none ∧
    Context.init noConfigEnv 0 (ProcessState.mk none)
      = Except.error ContextError.configLoadError :=
  ⟨rfl, rfl, c5_config_failure_fatal noConfigEnv 0 (ProcessState.mk none) rfl rfl⟩

/-- C6: every successfully constructed context has at most one of the four
classification flags set, and when the input source is unresolved (integer
device index, nonexistent path, or existing path of unrecognized type)
construction still succeeds — no exception — with all four flags false. -/
theorem c6_flags_exclusive_and_unresolved_clear (env : Env) (now : ℚ)
    (ps ps2 : ProcessState) (c : Context)
    (h : Context.init env now ps = Except.ok (c, ps2)) :
    Flags.count c.flags ≤ 1 ∧
    (env.inputGiven = true → inputUnresolved env.inputInfo = true →
      Flags.allClear c.flags = true) := by
  have hflags : c.flags = classifyInput env.inputGiven env.inputInfo :=
    init_ok_flags env now ps ps2 c h
  constructor
  · rw [hflags]
    exact classifyInput_count_le_one _ _
  · intro _ hu
    rw [hflags]
    exact classifyInput_unresolved_clear _ _ hu

/-- C6 witness: with a nonexistent input path, construction succeeds (no
exception) and both flag properties hold for the constructed context. -/
theorem c6_flags_exclusive_and_unresolved_clear_witness :
    Context.init unresolvedEnv 0 (ProcessState.mk none)
      = Except.ok (sampleContext, ProcessState.mk none) ∧
    (Flags.count sampleContext.flags ≤ 1 ∧
      (unresolvedEnv.inputGiven = true → inputUnresolved unresolvedEnv.inputInfo = true →
        Flags.allClear sampleContext.flags = true)) :=
  ⟨rfl,
    c6_flags_exclusive_and_unresolved_clear unresolvedEnv 0 (ProcessState.mk none)
      (ProcessState.mk none) sampleContext rfl⟩

/-- C7: `ImageClient.read` yields `(True, image)` exactly for an ndarray
reply, `(False, None)` for every other reply (the `None` sentinel, a timeout
result, or anything else), and these are the only possible results. -/
theorem c7_client_read_classification :
    (∀ img : Image, ImageClient.read (PyValue.ndarray img) = (true, some img)) ∧
    ImageClient.read PyValue.pynone = (false, none) ∧
    ImageClient.read PyValue.timeoutResult = (false, none) ∧
    (∀ tag : String, ImageClient.read (PyValue.otherValue tag) = (false, none)) ∧
    (∀ reply : PyValue,
      (∃ img, reply = PyValue.ndarray img ∧ ImageClient.read reply = (true, some img)) ∨
        ImageClient.read reply = (false, none)) := by
  refine ⟨fun img => rfl, rfl, rfl, fun tag => rfl, fun reply => ?_⟩
  cases reply with
  | ndarray img => exact Or.inl ⟨img, rfl, rfl⟩
  | pynone => exact Or.inr rfl
  | timeoutResult => exact Or.inr rfl
  | otherValue tag => exact Or.inr rfl

/-- C8: on a logger with an open output stream, `log(tag, msg)` at instant
`now` appends exactly one line, of the form tag‹sep›timestamp‹sep›msg with
the configured separator and the absolute wall-clock timestamp of the call
(not an offset from `initTime`). -/
theorem c8_log_appends_one_line (s : EventLoggerState) (o : OutStream) (now : ℚ)
    (tag msg : String) (ho : s.out = some o) (hopen : o.closed = false) :
    s.log now tag msg = Except.ok { s with out := some { o with lines := o.lines ++ [tag ++ s.sep ++ toString now ++ s.sep ++ msg] } } := by
  simp [EventLoggerState.log, ho, hopen]

/-- C8 witness: logging one event on a freshly opened logger. -/
theorem c8_log_appends_one_line_witness :
    (sampleLogger.out = some (OutStream.mk [] false) ∧
      (OutStream.mk [] false).closed = false) ∧
    sampleLogger.log 7 "evt" "hello" = Except.ok { sampleLogger with out := some { OutStream.mk [] false with lines := (OutStream.mk [] false).lines ++ ["evt" ++ sampleLogger.sep ++ toString (7 : ℚ) ++ sampleLogger.sep ++ "hello"] } } :=
  ⟨⟨rfl, rfl⟩,
    c8_log_appends_one_line sampleLogger (OutStream.mk [] false) 7 "evt" "hello" rfl rfl⟩

/-- C9: `stop()` clears the stored image to the absent sentinel and resets
`isFresh` to `True`, so a `read()` issued after `stop()` (with no new write)
re-enters the first-read wait loop — polling up to the maximum wait duration
and replying with the sentinel — rather than returning immediately: the
one-shot wait is re-armed by `stop()`. -/
theorem c9_stop_rearms_wait (s : ImageServerState) :
    s.stop.image = none ∧ s.stop.isFresh = true ∧
    (s.stop.read).waited = true ∧ (s.stop.read).result = none := by
  simp [ImageServerState.stop, ImageServerState.read]

/-- C10: when opening the output file fails, `EventLogger.__init__` catches
the error (construction returns a state rather than raising), skips the RPC
export and server start (`serverStarted` and `rpcExported` stay false),
never assigns `out` — and a subsequent `log` or `stop` on the degraded
instance fails with the missing-attribute error instead of writing a line or
closing a stream. -/
theorem c10_open_failure_degraded (filename : Option String) (sep : String)
    (port : Nat) (rpcExport startServer serverThreadFails : Bool) (now now2 : ℚ)
    (tag msg : String) (stopServer : Bool) :
    (EventLogger.init filename sep port rpcExport startServer now true
        serverThreadFails).out = none ∧
    (EventLogger.init filename sep port rpcExport startServer now true
        serverThreadFails).serverStarted = false ∧
    (EventLogger.init filename sep port rpcExport startServer now true
        serverThreadFails).rpcExported = false ∧
    (EventLogger.init filename sep port rpcExport startServer now true
        serverThreadFails).log now2 tag msg = Except.error PyError.attributeError ∧
    (EventLogger.init filename sep port rpcExport startServer now true
        serverThreadFails).stop stopServer = Except.error PyError.attributeError :=
  ⟨rfl, rfl, rfl, rfl, rfl⟩
